import Mathlib

/-!
Verification of the VoltDB CLI verb-dispatch framework
(`lib/python/voltcli/runner.py` and the `config` verb in
`lib/voltcli/volt.d/config.py`) against its natural-language
specification.

The Python code is shallowly embedded: pure computations become Lean
functions, and effectful code (printing help, aborting the process,
creating archives, writing configuration keys) is reified as explicit
event / result values.  A fatal `utility.abort(...)` is modelled as
`Except.error` carrying the abort messages; output is modelled as a list
of `Event` values.

External collaborators that live outside the two embedded source files
(the `cli` command processor, `utility` helpers, `environment`) are
modelled from the specification, and each such definition is marked
`Modelled from the spec:` in its doc comment.
-/

/-! ## Generic helpers: Python dict / string semantics -/

/-- Left-biased choice on options (`a or b` for option-like values). -/
def opt_or {α : Type} : Option α → Option α → Option α
  | some v, _ => some v
  | none, b => b

/-- Python `d[k]` read access on an insertion-ordered association list
(`None`-free dict lookup: first binding of the key, and `dict_set`
keeps at most one binding per key). -/
def dict_get {α : Type} : List (String × α) → String → Option α
  | [], _ => none
  | q :: rest, x => if x = q.1 then some q.2 else dict_get rest x

/-- Python `d[k] = v` on an insertion-ordered association list: an
existing binding is overwritten in place, a new key is appended. -/
def dict_set {α : Type} : List (String × α) → String × α → List (String × α)
  | [], p => [p]
  | q :: rest, p => if q.1 = p.1 then p :: rest else q :: dict_set rest p

/-- Python `s.split(c, 1)`: the part of the character list before the
first occurrence of `c`, and the part after it. -/
def break_once (c : Char) : List Char → List Char × List Char
  | [] => ([], [])
  | a :: rest =>
    if a = c then ([], rest)
    else
      let p := break_once c rest
      (a :: p.1, p.2)

/-- Head part of Python `s.split(c, 1)`. -/
def split_head (c : Char) (s : String) : String := String.mk (break_once c s.data).1

/-- Tail part of Python `s.split(c, 1)`. -/
def split_tail (c : Char) (s : String) : String := String.mk (break_once c s.data).2

/-- The whitespace characters removed by Python `str.strip()`. -/
def is_py_space (c : Char) : Bool :=
  c = ' ' || c = '\t' || c = '\n' || c = '\r' || c = '\x0b' || c = '\x0c'

/-- Python `s.strip()`. -/
def py_strip (s : String) : String :=
  String.mk (((s.data.dropWhile is_py_space).reverse.dropWhile is_py_space).reverse)

/-- Python `':'.join(xs)`. -/
def py_join_colon : List String → String
  | [] => ""
  | x :: rest => rest.foldl (fun acc s => acc ++ ":" ++ s) x

/-- An argv token that `optparse` treats as a flag (starts with `-`). -/
def is_flag_token (s : String) : Bool :=
  match s.data with
  | [] => false
  | c :: _ => c = '-'

/-! ## Data model -/

/-- One message argument passed to `utility.abort` / `utility.error`:
either a plain text line or a list of items (e.g. available verb
names) displayed as an itemised block. -/
inductive Msg : Type
  | text (s : String)
  | listing (items : List String)
deriving DecidableEq

/-- Does an abort payload contain an itemised list (such as a list of
available verb names)? -/
def Msg.is_listing : Msg → Bool
  | .listing _ => true
  | .text _ => false

/-- The fragment of a verb's `cli_spec` that the runner reads:
the base-verb flag and the optional secondary description. -/
structure CLISpec : Type where
  baseverb : Bool
  description2 : Option String
deriving DecidableEq

/-- A verb as the runner sees it: its name, its optional `classpath`
attribute (`none` models a verb without the attribute), and its
`cli_spec`. -/
structure Verb : Type where
  name : String
  classpath : Option String
  cli_spec : CLISpec
deriving DecidableEq

/-- A named, versioned collection of verbs (insertion-ordered mapping
from verb name to verb), per the spec's data model. -/
structure VerbSpace : Type where
  name : String
  version : String
  description : String
  verbs : List (String × Verb)
deriving DecidableEq

/-- `VerbSpace.verb_names`: the registered verb names. -/
def VerbSpace.verb_names (vs : VerbSpace) : List String := vs.verbs.map Prod.fst

/-- A request to create one package archive, as handed to
`VerbRunner._create_package(output_dir, name, version, description,
force)`; the archive-writing mechanics themselves are out of scope. -/
structure ArchiveReq : Type where
  output_dir : String
  name : String
  version : String
  description : String
  force : Bool
deriving DecidableEq

/-- Observable output of the runner: verb execution, usage/help
printing, and non-fatal error reports. -/
inductive Event : Type
  | executeVerb (verbspace_name : String) (verb : Verb) (args : List String)
  | overallUsage
  | verbHelp (name : String)
  | errorMsg (s : String)
  | header (s : String)
deriving DecidableEq

/-- The per-invocation execution context (`VerbRunner.__init__` fields
that the embedded methods read). -/
structure VerbRunner : Type where
  verb : Verb
  args : List String
  verbspace : VerbSpace
  internal_verbspaces : List (String × VerbSpace)
deriving DecidableEq

/-! ## Classpath assembly (`VerbRunner.__init__`) -/

/-- The classpath computation of `VerbRunner.__init__`: start from
`':'.join(environment.classpath)`; if `config.get('volt.classpath')`
is a non-empty string, append it; if the verb has a truthy
`classpath` attribute, prepend it; if `kwargs` binds `classpath`
(tested by key presence, not truthiness), prepend that. -/
def build_classpath (env_classpath : List String) (config_classpath : Option String)
    (verb_classpath : Option String) (kwargs_classpath : Option String) : String :=
  let cp0 := py_join_colon env_classpath
  let cp1 := match config_classpath with
    | some ext => if ext = "" then cp0 else cp0 ++ ":" ++ ext
    | none => cp0
  let cp2 := match verb_classpath with
    | some vcp => if vcp = "" then cp1 else vcp ++ ":" ++ cp1
    | none => cp1
  match kwargs_classpath with
  | some kcp => kcp ++ ":" ++ cp2
  | none => cp2

/-- The classpath assembly as the SPEC's words describe it (for
refinement comparison only, not translated from the source):
"environment-provided base classpath, then configuration-file
extension, then the verb's own declared classpath fragment, then any
classpath override passed via extra keyword bindings", with "all
non-empty segments joined with the path-list separator". -/
def classpath_spec_order (env_classpath : List String) (config_classpath : Option String)
    (verb_classpath : Option String) (kwargs_classpath : Option String) : String :=
  py_join_colon
    (([py_join_colon env_classpath] ++ config_classpath.toList ++ verb_classpath.toList
        ++ kwargs_classpath.toList).filter (fun s => s ≠ ""))

/-! ## Command processing and dispatch -/

/-- Modelled from the spec: the command processor resolves the verb
from the first non-option token of the argv (`cli` module, §4.2). -/
def find_verb_token : List String → Option (String × List String)
  | [] => none
  | a :: rest => if is_flag_token a then find_verb_token rest else some (a, rest)

/-- Modelled from the spec: `cli.VoltCLICommandProcessor.parse` (the
`cli` module is not part of the embedded sources).  The first
non-option token names the verb; an unknown verb name is a fatal
error; everything after the verb token that is not a flag token is a
positional argument of the verb (§4.2). -/
def processor_parse (verbs : List (String × Verb)) (args : List String) :
    Except (List Msg) (String × Verb × List String) :=
  match find_verb_token args with
  | none => .error [Msg.text "Missing verb."]
  | some (vname, rest) =>
    match dict_get verbs vname with
    | none => .error [Msg.text ("Unknown verb: " ++ vname)]
    | some verb => .ok (vname, verb, rest.filter (fun a => !is_flag_token a))

/-- `VerbRunner._run_command`: construct a fresh command processor
bound to the target verbspace, parse the synthetic argv, construct a
new `VerbRunner` from the parsed command, and execute it.  The
observable outcome is the execution of the resolved verb with the
parsed positional arguments (or the fatal parse error). -/
def VerbRunner.run_command (_r : VerbRunner) (verbspace : VerbSpace)
    (args : List String) : Except (List Msg) Event :=
  match processor_parse verbspace.verbs args with
  | .error e => .error e
  | .ok (_, verb, posargs) => .ok (Event.executeVerb verbspace.name verb posargs)

/-- `VerbRunner.call`: with no arguments, fatal abort; with a dotted
first argument, resolve an internal verbspace from the prefix and a
verb within it from the suffix (aborting on either failure); with an
undotted first argument, re-dispatch into the runner's own verbspace. -/
def VerbRunner.call (r : VerbRunner) : List String → Except (List Msg) Event
  | [] => .error [Msg.text "No arguments were passed to VerbRunner.call()."]
  | a0 :: rest =>
    if '.' ∈ a0.data then
      let verbspace_name := split_head '.' a0
      let verb_name := split_tail '.' a0
      match dict_get r.internal_verbspaces verbspace_name with
      | none =>
        .error [Msg.text ("Unknown name passed to VerbRunner.call(): " ++ verbspace_name)]
      | some verbspace =>
        if verb_name ∈ verbspace.verb_names then
          r.run_command verbspace (verb_name :: rest)
        else
          .error [Msg.text ("Unknown verb passed to VerbRunner.call(): " ++ a0),
                  Msg.text ("Available verbs in \"" ++ verbspace_name ++ "\":"),
                  Msg.listing verbspace.verb_names]
    else
      r.run_command r.verbspace (a0 :: rest)

/-! ## Help (`VerbRunner.help`, `VerbRunner.usage`, `VerbRunner._help_verb`) -/

/-- Modelled from the spec where printing is concerned: `usage()` calls
the command-level processor's `print_help`, which prints the overall
command usage (§4.2, §6); `_help_verb(name)` builds a verb parser and
prints that verb's detailed help.  `help` itself is translated from the
source: with `all` set it prints the full help; with explicit names it
prints per-name detailed help, reporting (without aborting) each name
that matches no verb; otherwise it prints `usage()`. -/
def VerbRunner.help (r : VerbRunner) (args : List String) (all : Bool) : List Event :=
  if all then
    [Event.header "===== Full Help =====", Event.overallUsage] ++
    (r.verbspace.verbs.filter (fun p => !p.2.cli_spec.baseverb)).flatMap
        (fun p => [Event.header ("===== Verb: " ++ p.1 ++ " ====="), Event.verbHelp p.1]) ++
    (r.verbspace.verbs.filter (fun p => p.2.cli_spec.baseverb)).flatMap
        (fun p => [Event.header ("===== Common Verb: " ++ p.1 ++ " ====="), Event.verbHelp p.1])
  else if args = [] then
    [Event.overallUsage]
  else
    args.flatMap (fun name =>
      if name ∈ r.verbspace.verb_names then [Event.verbHelp name]
      else [Event.errorMsg ("Verb \"" ++ name ++ "\" was not found."), Event.overallUsage])

/-! ## Packaging (`VerbRunner.package`) -/

/-- The loop of `VerbRunner.package` over explicitly named verbspaces:
each name must be a key of `internal_verbspaces` or the loop aborts
there (archives requested before the failing name are still issued);
a known name contributes one `_create_package` request carrying that
verbspace's name, version and description. -/
def package_loop (ivs : List (String × VerbSpace)) (output_dir : String) (force : Bool) :
    List String → List ArchiveReq × Option (List Msg)
  | [] => ([], none)
  | name :: rest =>
    match dict_get ivs name with
    | none =>
      ([], some [Msg.text ("Unknown base command \"" ++ name ++ "\" specified for packaging.")])
    | some vs =>
      let p := package_loop ivs output_dir force rest
      (⟨output_dir, vs.name, vs.version, vs.description, force⟩ :: p.1, p.2)

/-- `VerbRunner.package(output_dir_in, force, *args)`: a `None` output
directory becomes `''`; with no names the active verbspace is
packaged; with names, `package_loop` runs over them.  The result is
the list of issued archive requests plus the abort messages, if the
call aborted. -/
def VerbRunner.package (r : VerbRunner) (output_dir_in : Option String) (force : Bool)
    (args : List String) : List ArchiveReq × Option (List Msg) :=
  let output_dir := output_dir_in.getD ""
  if args = [] then
    ([⟨output_dir, r.verbspace.name, r.verbspace.version, r.verbspace.description, force⟩], none)
  else
    package_loop r.internal_verbspaces output_dir force args

/-! ## Configuration (`VoltConfig`) -/

/-- The persistent configuration store.  Modelled from the spec:
`utility.PersistentConfig` (not among the embedded sources) keeps a
permanent tier and a local-override tier; `get` reads the local tier
first, and `set_local` writes the local tier (§3, §6). -/
structure VoltConfig : Type where
  permanent : List (String × String)
  local_overrides : List (String × String)
deriving DecidableEq

/-- Modelled from the spec: `PersistentConfig.get` — the local override
wins over the permanent tier; an unset key reads as absent. -/
def VoltConfig.get (c : VoltConfig) (key : String) : Option String :=
  opt_or (dict_get c.local_overrides key) (dict_get c.permanent key)

/-- Modelled from the spec: `PersistentConfig.set_local` writes the
local-override tier. -/
def VoltConfig.set_local (c : VoltConfig) (key value : String) : VoltConfig :=
  ⟨c.permanent, dict_set c.local_overrides (key, value)⟩

/-- `VoltConfig.get_required` (from the source): an absent key is a
fatal abort whose messages name the key and suggest a `config`
command invocation; a present key returns its value.
`command_name` stands for `environment.command_name`. -/
def VoltConfig.get_required (c : VoltConfig) (command_name key : String) :
    Except (List Msg) String :=
  match c.get key with
  | none =>
    .error [Msg.text ("Configuration parameter \"" ++ key ++ "\" was not found."),
            Msg.text "Set parameters using the \"config\" command, for example:",
            Msg.listing [command_name ++ " config " ++ key ++ "=VALUE"]]
  | some v => .ok v

/-! ## Verbspace loading (`load_verbspace`) -/

/-- The scan-root computation of `load_verbspace`: start from the
framework's own installation directory (`os.path.dirname(__file__)`),
append the caller-script directory when supplied and not already
present, then append the working directory when not already present. -/
def scan_base_dirs (framework_dir : String) (command_dir : Option String)
    (cwd : String) : List String :=
  let dirs := [framework_dir]
  let dirs := match command_dir with
    | some d => if d ∈ dirs then dirs else dirs ++ [d]
    | none => dirs
  if cwd ∈ dirs then dirs else dirs ++ [cwd]

/-- The built-in `help` verb synthesized by `load_verbspace` when no
discovered verb has that name. -/
def builtin_help_verb : Verb := ⟨"help", none, ⟨true, none⟩⟩

/-- The built-in `package` verb synthesized by `load_verbspace` when no
discovered verb has that name. -/
def builtin_package_verb : Verb := ⟨"package", none, ⟨true, none⟩⟩

/-- One step of the standard-verb synthesis loop of `load_verbspace`:
register `d` under `k` only when `k` is not yet defined. -/
def add_one_default {α : Type} (l : List (String × α)) (k : String) (d : α) :
    List (String × α) :=
  if (dict_get l k).isSome then l else dict_set l (k, d)

/-- The final step of `load_verbspace`: register the standard `help`
and `package` verbs for any name not already defined. -/
def add_default_verbs (verbs : List (String × Verb)) : List (String × Verb) :=
  add_one_default (add_one_default verbs "help" builtin_help_verb)
    "package" builtin_package_verb

/-- `load_verbspace(command_name, command_dir, config, version,
description, package)`.  The file system and the dynamic execution of
discovered verb-definition units are modelled from the spec (§4.1,
`utility.PythonSourceFinder` and `VerbDecorators` are not among the
embedded sources): `defs root` is the ordered list of verb
registrations performed by executing the units found under
`root/<command_name>.d`, and executing the scan roots in order folds
those registrations into the shared verbs dict, later registrations
overwriting earlier ones; when running from a package, the bundle's
embedded resource location is searched after the disk roots
(`resource_defs`).  Finally the standard verbs are synthesized for
names not already defined. -/
def load_verbspace (framework_dir : String) (command_dir : Option String) (cwd : String)
    (defs : String → List (String × Verb)) (resource_defs : List (String × Verb))
    (packaged : Bool) (command_name version description : String) : VerbSpace :=
  let dirs := scan_base_dirs framework_dir command_dir cwd
  let regs := ((dirs.map defs).flatten) ++ (if packaged then resource_defs else [])
  let verbs := regs.foldl dict_set []
  ⟨command_name, version, description, add_default_verbs verbs⟩

/-! ## The `config` verb (`lib/voltcli/volt.d/config.py`) -/

/-- Key/value extraction for one well-formed `KEY=VALUE` argument of
the `config` verb: split on the first `=`, strip both parts, and
namespace a dot-free key under `volt.`. -/
def config_parse_arg (arg : String) : String × String :=
  let parts := break_once '=' arg.data
  let key := py_strip (String.mk parts.1)
  let value := py_strip (String.mk parts.2)
  let key := if key.data.contains '.' then key else "volt." ++ key
  (key, value)

/-- The `config` verb body: no arguments is a fatal abort; any argument
without `=` is collected into `bad` and, when `bad` is non-empty, the
verb aborts before performing any `set_local` write; otherwise every
argument produces one `set_local(key, value)` write, in order. -/
def config_verb (args : List String) : Except (List Msg) (List (String × String)) :=
  if args = [] then
    .error [Msg.text "At least one argument is required."]
  else
    let bad := args.filter (fun arg => !(arg.data.contains '='))
    if bad = [] then
      .ok (args.map config_parse_arg)
    else
      .error [Msg.text "Bad arguments (must be KEY=VALUE format):", Msg.listing bad]

/-! ## Concrete fixtures used by witnesses and counterexamples -/

/-- A plain (non-base) verb cli spec. -/
def demo_cli_spec : CLISpec := ⟨false, none⟩

/-- A demo verb named `show` living in the primary verbspace. -/
def demo_verb_show : Verb := ⟨"show", none, demo_cli_spec⟩

/-- A demo verb named `bar` living in the internal verbspace. -/
def demo_verb_bar : Verb := ⟨"bar", none, demo_cli_spec⟩

/-- The primary demo verbspace `volt`, defining `show`. -/
def demo_verbspace : VerbSpace := ⟨"volt", "1.0", "demo", [("show", demo_verb_show)]⟩

/-- The internal demo verbspace `voltadmin`, defining `bar`. -/
def demo_internal_verbspace : VerbSpace := ⟨"voltadmin", "1.0", "internal", [("bar", demo_verb_bar)]⟩

/-- A demo runner executing `show` in `volt`, with `voltadmin` loaded
as an internal verbspace. -/
def demo_runner : VerbRunner :=
  ⟨demo_verb_show, [], demo_verbspace, [("voltadmin", demo_internal_verbspace)]⟩

/-! ## Dictionary lemmas -/

/-- Reading a key after a dict write: the written key returns the new
value, any other key is unaffected. -/
theorem dict_get_set {α : Type} (l : List (String × α)) (k : String) (v : α) (x : String) :
    dict_get (dict_set l (k, v)) x = if x = k then some v else dict_get l x := by
  induction l with
  | nil => simp [dict_set, dict_get]
  | cons q rest ih =>
    simp only [dict_set]
    by_cases hq : q.1 = k
    · simp only [hq, if_true, dict_get]
      by_cases hx : x = k
      · simp [hx]
      · have hxq : ¬ x = q.1 := by rw [hq]; exact hx
        simp [hx, hxq]
    · simp only [hq, if_false, dict_get, ih]
      by_cases hxq : x = q.1
      · have hxk : ¬ x = k := by rw [hxq]; exact hq
        simp [hxq, hxk, hq]
      · simp [hxq]

/-- A key that reads back a value is among the stored keys. -/
theorem dict_get_mem_keys {α : Type} (l : List (String × α)) (x : String) (v : α)
    (h : dict_get l x = some v) : x ∈ l.map Prod.fst := by
  induction l with
  | nil => simp [dict_get] at h
  | cons q rest ih =>
    simp only [dict_get] at h
    by_cases hx : x = q.1
    · simp [hx]
    · simp only [hx, if_false] at h
      simp [ih h]

/-- The last value written for a key in a sequence of dict
assignments: the rightmost pair of the sequence carrying that key. -/
def last_write {α : Type} (ps : List (String × α)) (x : String) : Option α :=
  (ps.reverse.find? (fun p => p.1 == x)).map Prod.snd

/-- `find?` over an append searches the left part first. -/
theorem find_first_append {α : Type} (p : α → Bool) (l1 l2 : List α) :
    (l1 ++ l2).find? p = opt_or (l1.find? p) (l2.find? p) := by
  induction l1 with
  | nil => simp [opt_or]
  | cons a rest ih =>
    by_cases ha : p a
    · simp [List.find?, ha, opt_or]
    · simp [List.find?, ha, ih]

/-- `Option.map` distributes over `opt_or`. -/
theorem map_opt_or {α β : Type} (f : α → β) (a b : Option α) :
    (opt_or a b).map f = opt_or (a.map f) (b.map f) := by
  cases a <;> simp [opt_or]

/-- `opt_or` is associative. -/
theorem opt_or_assoc {α : Type} (a b c : Option α) :
    opt_or (opt_or a b) c = opt_or a (opt_or b c) := by
  cases a <;> simp [opt_or]

/-- Folding a sequence of dict assignments over an initial dict: a key
reads back its last written value, falling back to the initial dict
when the sequence never writes the key. -/
theorem dict_get_foldl_set {α : Type} (ps : List (String × α)) (acc : List (String × α))
    (x : String) :
    dict_get (ps.foldl dict_set acc) x = opt_or (last_write ps x) (dict_get acc x) := by
  induction ps generalizing acc with
  | nil => simp [last_write, opt_or]
  | cons p rest ih =>
    have hstep : dict_get (dict_set acc p) x = if x = p.1 then some p.2 else dict_get acc x := by
      have := dict_get_set acc p.1 p.2 x
      simpa using this
    have hfold : (p :: rest).foldl dict_set acc = rest.foldl dict_set (dict_set acc p) := rfl
    rw [hfold, ih]
    have hlast : last_write (p :: rest) x =
        opt_or (last_write rest x) (if x = p.1 then some p.2 else none) := by
      simp only [last_write, List.reverse_cons, find_first_append, map_opt_or]
      by_cases hx : p.1 = x
      · have hb : (p.1 == x) = true := beq_iff_eq.mpr hx
        have hx2 : x = p.1 := hx.symm
        simp [List.find?, hb, hx2, opt_or]
      · have hb : (p.1 == x) = false := beq_eq_false_iff_ne.mpr hx
        have hx2 : ¬ x = p.1 := fun h => hx h.symm
        simp [List.find?, hb, hx2, opt_or]
    rw [hlast, opt_or_assoc, hstep]
    by_cases hx : x = p.1 <;> simp [hx, opt_or]

/-- Registering a default under a key never changes a name that is
already registered. -/
theorem add_one_default_preserves {α : Type} (l : List (String × α)) (k : String) (d : α)
    (x : String) (v : α) (h : dict_get l x = some v) :
    dict_get (add_one_default l k d) x = some v := by
  unfold add_one_default
  by_cases hk : (dict_get l k).isSome
  · simp [hk, h]
  · have hxk : ¬ x = k := by
      intro hx
      rw [hx] at h
      rw [h] at hk
      simp at hk
    simp [hk, dict_get_set, hxk, h]

/-- Synthesizing the default `help`/`package` verbs never changes a
name that is already registered. -/
theorem add_default_verbs_preserves (verbs : List (String × Verb)) (x : String) (v : Verb)
    (h : dict_get verbs x = some v) : dict_get (add_default_verbs verbs) x = some v := by
  unfold add_default_verbs
  exact add_one_default_preserves _ "package" builtin_package_verb x v
    (add_one_default_preserves verbs "help" builtin_help_verb x v h)

/-! ## Claim theorems -/

/-- Claim C10: `VerbRunner.call` with an empty argument list aborts
with a fatal error message before any dispatch is attempted, so the
indexing of the first argument is never reached and no raw indexing
exception can escape. -/
theorem C10_call_empty_args_aborts (r : VerbRunner) :
    r.call [] = .error [Msg.text "No arguments were passed to VerbRunner.call()."] := rfl

/-- Claim C4 counterexample: with environment base `["E"]`,
configuration extension `"C"`, verb fragment `"V"` and kwargs
override `"K"`, the code builds `"K:V:E:C"`: the verb fragment and
the kwargs override are prepended, not appended, so the result
differs from the spec's claimed assembly order `"E:C:V:K"`. -/
theorem C4_counterexample :
    build_classpath ["E"] (some "C") (some "V") (some "K") = "K:V:E:C" ∧
    build_classpath ["E"] (some "C") (some "V") (some "K") ≠
      classpath_spec_order ["E"] (some "C") (some "V") (some "K") := by
  constructor
  · rfl
  · decide

/-- Claim C4 (amended): the configuration-file extension is appended
after the environment base, while the verb's classpath fragment and
then the kwargs override are prepended in front (kwargs outermost,
hence highest precedence), all joined with a literal `:`. -/
theorem C4_amended_classpath_assembly (env : List String) (ext vcp kcp : String)
    (hext : ext ≠ "") (hvcp : vcp ≠ "") :
    build_classpath env (some ext) (some vcp) (some kcp) =
      kcp ++ ":" ++ (vcp ++ ":" ++ (py_join_colon env ++ ":" ++ ext)) := by
  simp [build_classpath, hext, hvcp]

/-- Witness for the amended C4 theorem at a concrete input. -/
theorem C4_amended_witness :
    build_classpath ["E"] (some "C") (some "V") (some "K") = "K:V:E:C" :=
  (C4_amended_classpath_assembly ["E"] "C" "V" "K" (by decide) (by decide)).trans rfl

/-- Claim C6: `get_required` on an absent key aborts fatally with
messages containing the literal key name and a suggested `config`
command invocation; on a present key (for example right after
`set_local` of that key) it returns the stored value. -/
theorem C6_get_required (c : VoltConfig) (cmd key : String) :
    (c.get key = none →
      c.get_required cmd key =
        .error [Msg.text ("Configuration parameter \"" ++ key ++ "\" was not found."),
                Msg.text "Set parameters using the \"config\" command, for example:",
                Msg.listing [cmd ++ " config " ++ key ++ "=VALUE"]] ∧
      key.data <:+: ("Configuration parameter \"" ++ key ++ "\" was not found.").data ∧
      key.data <:+: (cmd ++ " config " ++ key ++ "=VALUE").data) ∧
    (∀ value : String, (c.set_local key value).get_required cmd key = .ok value) := by
  constructor
  · intro h
    refine ⟨by simp [VoltConfig.get_required, h], ?_, ?_⟩
    · refine ⟨("Configuration parameter \"").data, ("\" was not found.").data, ?_⟩
      simp [String.data_append]
    · refine ⟨(cmd ++ " config ").data, ("=VALUE").data, ?_⟩
      simp [String.data_append]
  · intro value
    have hget : (c.set_local key value).get key = some value := by
      simp [VoltConfig.set_local, VoltConfig.get, dict_get_set, opt_or]
    simp [VoltConfig.get_required, hget]

/-- Witness for C6 at a concrete empty store and key `volt.catalog`. -/
theorem C6_witness :
    VoltConfig.get_required ⟨[], []⟩ "volt" "volt.catalog" =
      .error [Msg.text "Configuration parameter \"volt.catalog\" was not found.",
              Msg.text "Set parameters using the \"config\" command, for example:",
              Msg.listing ["volt config volt.catalog=VALUE"]] ∧
    VoltConfig.get_required (VoltConfig.set_local ⟨[], []⟩ "volt.catalog" "X")
        "volt" "volt.catalog" = .ok "X" := by
  have h := C6_get_required ⟨[], []⟩ "volt" "volt.catalog"
  exact ⟨(h.1 rfl).1, h.2 "X"⟩

/-- Branch structure of `config_verb`, with the `bad` list inlined. -/
theorem config_verb_eq (args : List String) :
    config_verb args =
      if args = [] then .error [Msg.text "At least one argument is required."]
      else if args.filter (fun arg => !(arg.data.contains '=')) = [] then
        .ok (args.map config_parse_arg)
      else
        .error [Msg.text "Bad arguments (must be KEY=VALUE format):",
                Msg.listing (args.filter (fun arg => !(arg.data.contains '=')))] := rfl

/-- Claim C9: the `config` verb aborts (performing no write) when the
argument list is empty or any argument lacks `=`; when every argument
is well-formed `KEY=VALUE` it performs exactly one write per
argument, and a stripped key containing no dot is stored under the
`volt.` prefix. -/
theorem C9_config_verb_aborts_or_writes (args : List String) :
    (args = [] → config_verb args = .error [Msg.text "At least one argument is required."]) ∧
    (∀ a, a ∈ args → '=' ∉ a.data →
      config_verb args =
        .error [Msg.text "Bad arguments (must be KEY=VALUE format):",
                Msg.listing (args.filter (fun arg => !(arg.data.contains '=')))]) ∧
    ((∀ a, a ∈ args → '=' ∈ a.data) → args ≠ [] →
      config_verb args = .ok (args.map config_parse_arg) ∧
      ∀ a, a ∈ args →
        '.' ∉ (py_strip (String.mk (break_once '=' a.data).1)).data →
        (config_parse_arg a).1 = "volt." ++ py_strip (String.mk (break_once '=' a.data).1)) := by
  refine ⟨?_, ?_, ?_⟩
  · intro h
    subst h
    rfl
  · intro a ha hnoeq
    have hne : args ≠ [] := by
      intro h
      subst h
      cases ha
    have hbadmem : a ∈ args.filter (fun arg => !(arg.data.contains '=')) :=
      List.mem_filter.mpr ⟨ha, by simpa using hnoeq⟩
    have hbad : args.filter (fun arg => !(arg.data.contains '=')) ≠ [] :=
      List.ne_nil_of_mem hbadmem
    rw [config_verb_eq, if_neg hne, if_neg hbad]
  · intro hall hne
    have hbad : args.filter (fun arg => !(arg.data.contains '=')) = [] := by
      rw [List.filter_eq_nil_iff]
      intro a ha
      simpa using hall a ha
    constructor
    · rw [config_verb_eq, if_neg hne, if_pos hbad]
    · intro a _ hnodot
      simp [config_parse_arg, hnodot]

/-- Witness for C9 at concrete argument lists covering all three
branches. -/
theorem C9_witness :
    config_verb [] = .error [Msg.text "At least one argument is required."] ∧
    config_verb ["oops"] =
      .error [Msg.text "Bad arguments (must be KEY=VALUE format):", Msg.listing ["oops"]] ∧
    config_verb ["catalog=x.jar"] = .ok [("volt.catalog", "x.jar")] := by
  refine ⟨(C9_config_verb_aborts_or_writes []).1 rfl, ?_, ?_⟩
  · exact (C9_config_verb_aborts_or_writes ["oops"]).2.1 "oops" (by decide) (by decide)
  · exact ((C9_config_verb_aborts_or_writes ["catalog=x.jar"]).2.2 (by decide) (by decide)).1

/-- Claim C1: `call` with an undotted first argument naming a verb of
the runner's own verbspace re-parses the synthetic argv through a
fresh processor bound to that verbspace and executes that verb of
that verbspace with the remaining (non-flag) arguments as its
positional arguments. -/
theorem C1_call_own_verbspace (r : VerbRunner) (name : String) (extra : List String) (v : Verb)
    (hnodot : '.' ∉ name.data)
    (hnoflag : is_flag_token name = false)
    (hdef : dict_get r.verbspace.verbs name = some v)
    (hextra : ∀ a ∈ extra, is_flag_token a = false) :
    r.call (name :: extra) = .ok (Event.executeVerb r.verbspace.name v extra) := by
  have hfilter : extra.filter (fun a => !is_flag_token a) = extra := by
    rw [List.filter_eq_self]
    intro a ha
    simp [hextra a ha]
  simp [VerbRunner.call, hnodot, VerbRunner.run_command, processor_parse, find_verb_token,
        hnoflag, hdef, hfilter]

/-- Witness for C1: dispatching `show` with one extra argument inside
the demo runner's own verbspace executes `volt`'s `show` verb with
that argument. -/
theorem C1_witness :
    demo_runner.call ["show", "x"] = .ok (Event.executeVerb "volt" demo_verb_show ["x"]) :=
  C1_call_own_verbspace demo_runner "show" ["x"] demo_verb_show (by decide) (by decide)
    (by decide) (by decide)

/-- Claim C2 counterexample: `call('missing.bar')` on a runner whose
internal verbspaces do not contain `missing` aborts with a single
text message naming `missing`; the abort payload contains no listing
of verb names, contradicting the claim that both failure cases list
the available verb names of the target verbspace. -/
theorem C2_counterexample :
    demo_runner.call ["missing.bar"] =
      .error [Msg.text "Unknown name passed to VerbRunner.call(): missing"] ∧
    ([Msg.text "Unknown name passed to VerbRunner.call(): missing"].any Msg.is_listing)
      = false := by
  exact ⟨rfl, rfl⟩

/-- Claim C2 (amended): `call` with a dotted first argument selects an
internal verbspace by the prefix and a verb within it by the suffix;
an unknown verbspace prefix is a fatal abort naming the prefix (with
no verb listing), while a known verbspace with an unknown verb
aborts listing the available verb names of the target verbspace; and
when both resolve, the suffix verb of the internal verbspace is
executed with the remaining (non-flag) arguments. -/
theorem C2_amended_cross_call (r : VerbRunner) (a0 : String) (rest : List String)
    (hdot : '.' ∈ a0.data) :
    (dict_get r.internal_verbspaces (split_head '.' a0) = none →
      r.call (a0 :: rest) =
        .error [Msg.text ("Unknown name passed to VerbRunner.call(): " ++ split_head '.' a0)]) ∧
    (∀ vs, dict_get r.internal_verbspaces (split_head '.' a0) = some vs →
      split_tail '.' a0 ∉ vs.verb_names →
      r.call (a0 :: rest) =
        .error [Msg.text ("Unknown verb passed to VerbRunner.call(): " ++ a0),
                Msg.text ("Available verbs in \"" ++ split_head '.' a0 ++ "\":"),
                Msg.listing vs.verb_names]) ∧
    (∀ vs v, dict_get r.internal_verbspaces (split_head '.' a0) = some vs →
      dict_get vs.verbs (split_tail '.' a0) = some v →
      is_flag_token (split_tail '.' a0) = false →
      (∀ a ∈ rest, is_flag_token a = false) →
      r.call (a0 :: rest) = .ok (Event.executeVerb vs.name v rest)) := by
  refine ⟨?_, ?_, ?_⟩
  · intro h
    simp [VerbRunner.call, hdot, h]
  · intro vs hvs hnot
    simp [VerbRunner.call, hdot, hvs, hnot]
  · intro vs v hvs hverb hnoflag hrest
    have hmem : split_tail '.' a0 ∈ vs.verb_names :=
      dict_get_mem_keys vs.verbs (split_tail '.' a0) v hverb
    have hfilter : rest.filter (fun a => !is_flag_token a) = rest := by
      rw [List.filter_eq_self]
      intro a ha
      simp [hrest a ha]
    simp [VerbRunner.call, hdot, hvs, hmem, VerbRunner.run_command, processor_parse,
          find_verb_token, hnoflag, hverb, hfilter]

/-- Witness for the amended C2 theorem: an unknown verbspace prefix,
an unknown verb of a known internal verbspace, and a successful
cross-verbspace dispatch, all on the demo runner. -/
theorem C2_amended_witness :
    demo_runner.call ["missing.bar"] =
      .error [Msg.text "Unknown name passed to VerbRunner.call(): missing"] ∧
    demo_runner.call ["voltadmin.nope"] =
      .error [Msg.text "Unknown verb passed to VerbRunner.call(): voltadmin.nope",
              Msg.text "Available verbs in \"voltadmin\":",
              Msg.listing ["bar"]] ∧
    demo_runner.call ["voltadmin.bar", "y"] =
      .ok (Event.executeVerb "voltadmin" demo_verb_bar ["y"]) := by
  refine ⟨?_, ?_, ?_⟩
  · exact (C2_amended_cross_call demo_runner "missing.bar" [] (by decide)).1 (by decide)
  · exact (C2_amended_cross_call demo_runner "voltadmin.nope" [] (by decide)).2.1
      demo_internal_verbspace (by decide) (by decide)
  · exact (C2_amended_cross_call demo_runner "voltadmin.bar" ["y"] (by decide)).2.2
      demo_internal_verbspace demo_verb_bar (by decide) (by decide) (by decide) (by decide)

/-- Claim C7 counterexample: on the demo runner (executing verb
`show`), `help()` with no names and without `all` prints exactly the
overall command usage and does not print the calling verb's own
detailed usage, contradicting the claim. -/
theorem C7_counterexample :
    demo_runner.help [] false = [Event.overallUsage] ∧
    Event.verbHelp demo_runner.verb.name ∉ demo_runner.help [] false := by
  refine ⟨rfl, ?_⟩
  intro h
  simp [VerbRunner.help] at h

/-- Claim C7 (amended): `help` with no positional arguments and without
`all` prints the overall command usage via the command processor's
help screen, not the calling verb's own usage. -/
theorem C7_amended_help_no_args (r : VerbRunner) :
    r.help [] false = [Event.overallUsage] := rfl

/-- Claim C8: `help` invoked with an explicit list of names prints the
detailed help of every name matching a verb of the verbspace and
reports every unmatched name with a non-fatal error message,
continuing through all remaining names (every member of the list is
processed, whatever came before it). -/
theorem C8_help_explicit_names (r : VerbRunner) (names : List String) (name : String)
    (hmem : name ∈ names) :
    (name ∈ r.verbspace.verb_names → Event.verbHelp name ∈ r.help names false) ∧
    (name ∉ r.verbspace.verb_names →
      Event.errorMsg ("Verb \"" ++ name ++ "\" was not found.") ∈ r.help names false) := by
  have hne : names ≠ [] := by
    intro h
    subst h
    cases hmem
  have hform : r.help names false = names.flatMap (fun n =>
      if n ∈ r.verbspace.verb_names then [Event.verbHelp n]
      else [Event.errorMsg ("Verb \"" ++ n ++ "\" was not found."), Event.overallUsage]) := by
    simp [VerbRunner.help, hne]
  constructor
  · intro hv
    rw [hform]
    exact List.mem_flatMap.mpr ⟨name, hmem, by simp [hv]⟩
  · intro hv
    rw [hform]
    exact List.mem_flatMap.mpr ⟨name, hmem, by simp [hv]⟩

/-- Witness for C8: `help(['nope', 'show'])` on the demo runner prints
the detailed help of `show` and a non-fatal error for `nope`. -/
theorem C8_witness :
    Event.verbHelp "show" ∈ demo_runner.help ["nope", "show"] false ∧
    Event.errorMsg "Verb \"nope\" was not found." ∈ demo_runner.help ["nope", "show"] false := by
  constructor
  · exact (C8_help_explicit_names demo_runner ["nope", "show"] "show" (by decide)).1 (by decide)
  · exact (C8_help_explicit_names demo_runner ["nope", "show"] "nope" (by decide)).2 (by decide)

/-- The packaging loop aborts at the first requested name that is not a
known internal verbspace, naming that command in the abort message. -/
theorem package_loop_abort (ivs : List (String × VerbSpace)) (odir : String) (force : Bool)
    (args : List String) (n0 : String)
    (h : args.find? (fun n => (dict_get ivs n).isNone) = some n0) :
    (package_loop ivs odir force args).2 =
      some [Msg.text ("Unknown base command \"" ++ n0 ++ "\" specified for packaging.")] := by
  induction args with
  | nil => simp [List.find?] at h
  | cons a rest ih =>
    by_cases ha : (dict_get ivs a).isNone
    · simp only [List.find?, ha] at h
      have han : a = n0 := by
        injection h
      have hnone : dict_get ivs a = none := Option.isNone_iff_eq_none.mp ha
      subst han
      simp [package_loop, hnone]
    · have ha2 : (dict_get ivs a).isNone = false := by
        simp only [Bool.not_eq_true] at ha
        exact ha
      simp only [List.find?, ha2] at h
      match h2 : dict_get ivs a with
      | none =>
        rw [h2] at ha
        simp at ha
      | some vs =>
        simp [package_loop, h2, ih h]

/-- The packaging loop over a list of known names issues exactly one
archive request per requested name, in order, carrying the identity
of the verbspace registered under that name, and does not abort. -/
theorem package_loop_ok (ivs : List (String × VerbSpace)) (odir : String) (force : Bool)
    (args : List String) (h : ∀ n, n ∈ args → (dict_get ivs n).isSome) :
    package_loop ivs odir force args =
      (args.filterMap (fun n => (dict_get ivs n).map
          (fun vs => ⟨odir, vs.name, vs.version, vs.description, force⟩)), none) := by
  induction args with
  | nil => simp [package_loop]
  | cons a rest ih =>
    have ha := h a (List.mem_cons_self a rest)
    match h2 : dict_get ivs a with
    | none =>
      rw [h2] at ha
      simp at ha
    | some vs =>
      have ihh := ih (fun n hn => h n (List.mem_cons_of_mem a hn))
      simp [package_loop, h2, ihh, List.filterMap_cons]

/-- Claim C5: `package` with no names packages the active verbspace;
with names, any name that is not a known internal verbspace is a
fatal abort naming that command; and a list of known names produces
exactly one archive request per requested name, carrying the
corresponding verbspace's name, version and description. -/
theorem C5_package_requests (r : VerbRunner) (odir : Option String) (force : Bool)
    (args : List String) :
    (args = [] →
      r.package odir force args =
        ([⟨odir.getD "", r.verbspace.name, r.verbspace.version, r.verbspace.description,
            force⟩], none)) ∧
    (∀ n0, args.find? (fun n => (dict_get r.internal_verbspaces n).isNone) = some n0 →
      (r.package odir force args).2 =
        some [Msg.text ("Unknown base command \"" ++ n0 ++ "\" specified for packaging.")]) ∧
    ((∀ n, n ∈ args → (dict_get r.internal_verbspaces n).isSome) → args ≠ [] →
      r.package odir force args =
        (args.filterMap (fun n => (dict_get r.internal_verbspaces n).map
            (fun vs => ⟨odir.getD "", vs.name, vs.version, vs.description, force⟩)),
          none)) := by
  refine ⟨?_, ?_, ?_⟩
  · intro h
    subst h
    rfl
  · intro n0 h
    have hne : args ≠ [] := by
      intro ha
      subst ha
      simp [List.find?] at h
    simp only [VerbRunner.package, hne, if_false]
    exact package_loop_abort r.internal_verbspaces (odir.getD "") force args n0 h
  · intro hall hne
    simp only [VerbRunner.package, hne, if_false]
    exact package_loop_ok r.internal_verbspaces (odir.getD "") force args hall

/-- Witness for C5 on the demo runner: packaging with no names
packages `volt` itself; `['voltadmin']` produces exactly the one
archive for the internal verbspace; `['missing']` aborts naming
`missing`. -/
theorem C5_witness :
    demo_runner.package none false [] = ([⟨"", "volt", "1.0", "demo", false⟩], none) ∧
    demo_runner.package none false ["voltadmin"] =
      ([⟨"", "voltadmin", "1.0", "internal", false⟩], none) ∧
    (demo_runner.package none false ["missing"]).2 =
      some [Msg.text "Unknown base command \"missing\" specified for packaging."] := by
  refine ⟨?_, ?_, ?_⟩
  · exact (C5_package_requests demo_runner none false []).1 rfl
  · exact (C5_package_requests demo_runner none false ["voltadmin"]).2.2 (by decide) (by decide)
  · exact (C5_package_requests demo_runner none false ["missing"]).2.1 "missing" (by decide)

/-- Claim C3: the ordered de-duplicated scan-root list of
`load_verbspace` is the framework installation directory first, then
the caller-script directory when supplied and distinct from it, then
the working directory when distinct from both; and a verb name
registered by several scan roots ends up bound to the registration
performed by the last (highest-priority) scanned root that defines
it. -/
theorem C3_scan_roots_and_precedence (fw : String) (command_dir : Option String) (cwd : String)
    (defs : String → List (String × Verb)) (cn ver desc : String) (x : String) (v : Verb)
    (hlast : last_write (((scan_base_dirs fw command_dir cwd).map defs).flatten) x = some v) :
    scan_base_dirs fw command_dir cwd =
      [fw] ++ (match command_dir with
               | some d => if d = fw then [] else [d]
               | none => []) ++
        (if cwd = fw ∨ command_dir = some cwd then [] else [cwd]) ∧
    dict_get (load_verbspace fw command_dir cwd defs [] false cn ver desc).verbs x
      = some v := by
  constructor
  · unfold scan_base_dirs
    cases command_dir with
    | none =>
      by_cases hc : cwd = fw
      · simp [hc]
      · simp [hc]
    | some d =>
      by_cases hd : d = fw
      · by_cases hc : cwd = fw
        · simp [hd, hc]
        · have hdc : ¬ (some d = some cwd) := by
            intro hh
            injection hh with hh2
            rw [hd] at hh2
            exact hc hh2.symm
          have hcf : ¬ fw = cwd := fun hh => hc hh.symm
          simp [hd, hc, hdc, hcf]
      · by_cases hc1 : cwd = fw
        · simp [hd, hc1]
        · by_cases hc2 : cwd = d
          · have hdc : some d = some cwd := by rw [hc2]
            simp [hd, hc1, hc2, hdc]
          · have hdc : ¬ (some d = some cwd) := by
              intro hh
              injection hh with hh2
              exact hc2 hh2.symm
            simp [hd, hc1, hc2, hdc]
  · have hregs : dict_get
        ((((scan_base_dirs fw command_dir cwd).map defs).flatten).foldl dict_set []) x
        = some v := by
      rw [dict_get_foldl_set, hlast]
      rfl
    unfold load_verbspace
    simp only [Bool.false_eq_true, if_false, List.append_nil]
    exact add_default_verbs_preserves _ x v hregs

/-- Three-root fixture for C3: the framework root `FW` registers this
verb under `X`. -/
def c3_verb_fw : Verb := ⟨"X", none, demo_cli_spec⟩

/-- Three-root fixture for C3: the caller-script root `CD` registers
this verb under `X`. -/
def c3_verb_cd : Verb := ⟨"X", some "cd.jar", demo_cli_spec⟩

/-- Three-root fixture for C3: the working-directory root `WD`
registers this verb under `X`. -/
def c3_verb_wd : Verb := ⟨"X", some "wd.jar", demo_cli_spec⟩

/-- Three-root fixture for C3: the registrations each scan root
performs, every root defining a verb named `X` with a different
body. -/
def c3_defs : String → List (String × Verb) := fun d =>
  if d = "FW" then [("X", c3_verb_fw)]
  else if d = "CD" then [("X", c3_verb_cd)]
  else [("X", c3_verb_wd)]

/-- Witness for C3: with three distinct scan roots each defining `X`,
the scan list is `[FW, CD, WD]` and the effective `X` is the
working-directory (last scanned) registration. -/
theorem C3_witness :
    scan_base_dirs "FW" (some "CD") "WD" = ["FW", "CD", "WD"] ∧
    dict_get (load_verbspace "FW" (some "CD") "WD" c3_defs [] false "volt" "1" "d").verbs "X"
      = some c3_verb_wd := by
  have h := C3_scan_roots_and_precedence "FW" (some "CD") "WD" c3_defs "volt" "1" "d" "X"
      c3_verb_wd (by decide)
  exact ⟨h.1.trans (by decide), h.2⟩
